import Mathlib

/-!
Verification of the clip-creation pipeline (clip_creator.py, youtube_uploader.py).

Strings from the Python side are modelled as `List Char`.  The shallow
embedding below translates the pure time-codec functions directly, and models
the effectful orchestration (subprocess calls, file system, HTTP) by scripted
outcome oracles threaded through explicit state.
-/

/-- Python strings are modelled as lists of characters. -/
abbrev Str := List Char

/-- Conversion helper from Lean string literals to the model's string type. -/
def pys (s : String) : Str := s.toList

/-! ## Time Codec: `time_to_seconds` / `seconds_to_time` -/

/-- Model of `str.split(':')`: splits at every colon, keeping empty fields.
The result is always non-empty, like in Python. -/
def splitOnColon : Str → List Str
  | [] => [[]]
  | c :: rest =>
    match splitOnColon rest with
    | [] => if c = ':' then [[], []] else [[c]]
    | p :: ps => if c = ':' then [] :: p :: ps else (c :: p) :: ps

/-- Numeric value of an ASCII digit string, most significant digit first. -/
def digitsVal (l : Str) : Nat := l.foldl (fun a c => 10 * a + (c.toNat - 48)) 0

/-- Strip of leading and trailing spaces, as Python `int()` does before
parsing (modelled for the ASCII space character). -/
def stripSpaces (l : Str) : Str :=
  ((l.dropWhile (fun c => c = ' ')).reverse.dropWhile (fun c => c = ' ')).reverse

/-- Core of the model of Python `int(str)`: an optional sign followed by at
least one ASCII digit; anything else raises `ValueError` (modelled as
`none`). -/
def pyIntCore (t : Str) : Option Int :=
  match t with
  | [] => none
  | c :: ds =>
      if c = '-' then
        if !ds.isEmpty && ds.all Char.isDigit then some (-(digitsVal ds : Int)) else none
      else if c = '+' then
        if !ds.isEmpty && ds.all Char.isDigit then some ((digitsVal ds : Int)) else none
      else if (c :: ds).all Char.isDigit then some ((digitsVal (c :: ds) : Int)) else none

/-- Model of Python `int(str)` (ASCII decimal literals; a failure to parse,
i.e. Python's `ValueError`, is `none`). -/
def pyInt (l : Str) : Option Int := pyIntCore (stripSpaces l)

/-- `time_to_seconds` from clip_creator.py: splits on `:`; three fields are
read as H:M:S, two as M:S, and otherwise the first field alone is read as a
bare integer.  A `ValueError` from `int()` is `none`. -/
def time_to_seconds (s : Str) : Option Int :=
  match splitOnColon s with
  | [a, b, c] => do
      let h ← pyInt a
      let m ← pyInt b
      let sec ← pyInt c
      pure (h * 3600 + m * 60 + sec)
  | [a, b] => do
      let m ← pyInt a
      let sec ← pyInt b
      pure (m * 60 + sec)
  | parts => pyInt (parts.headD [])

/-- Character of a decimal digit (`0 ≤ d ≤ 9`). -/
def digitChar (d : Nat) : Char := Char.ofNat (48 + d)

/-- Digits of `n`, most significant first; `fuel` bounds the recursion depth
(any `fuel ≥ n` is exact). -/
def natReprAux : Nat → Nat → Str
  | 0, _ => []
  | fuel + 1, n => if n = 0 then [] else natReprAux fuel (n / 10) ++ [digitChar (n % 10)]

/-- Decimal representation of a natural number, as Python `str` renders it:
most significant digit first, and `0` rendered as `"0"`. -/
def natRepr (n : Nat) : Str :=
  if n = 0 then ['0'] else natReprAux n n

/-- Decimal representation of a Python integer (sign plus digits). -/
def intRepr (n : Int) : Str :=
  if n < 0 then '-' :: natRepr n.natAbs else natRepr n.toNat

/-- Model of the f-string format `{x:02d}`: left-pad with zeros to width 2. -/
def pad2 (s : Str) : Str := List.replicate (2 - s.length) '0' ++ s

/-- `seconds_to_time` from clip_creator.py: renders `HH:MM:SS` with
zero-padded fields.  Lean's `Int` division/modulo agree with Python's `//`
and `%` here (Euclidean convention, positive divisors). -/
def seconds_to_time (n : Int) : Str :=
  let h := n / 3600
  let m := (n % 3600) / 60
  let s := n % 60
  pad2 (intRepr h) ++ ':' :: (pad2 (intRepr m) ++ ':' :: pad2 (intRepr s))

/-! ## Upload Client: `YouTubeUploader` (youtube_uploader.py)

The network is modelled by a script of outcomes for the successive
`insert_request.next_chunk()` calls, and by outcome oracles for the
thumbnail-set request. -/

/-- Outcome of one `next_chunk()` call: a progress chunk (`response` still
`None`), a final response (carrying `response['id']` when present), an
`HttpError` with a status code, or a retriable transport exception
(`httplib2` error / `IOError`) carrying its `str(e)` message. -/
inductive ChunkOutcome
  | progress
  | done (vid : Option Str)
  | httpErr (status : Int)
  | transportErr (msg : Str)
deriving DecidableEq

/-- `MAX_RETRIES` from youtube_uploader.py. -/
def MAX_RETRIES : Nat := 5

/-- `RETRIABLE_STATUS_CODES` from youtube_uploader.py. -/
def RETRIABLE_STATUS_CODES : List Int := [500, 502, 503, 504]

/-- Result of the `_resumable_upload` loop: a normal return (`Optional[str]`
in Python), a re-raised non-retriable `HttpError`, or the modelling artifact
that the outcome script was exhausted while the loop would still continue. -/
inductive LoopResult
  | ret (v : Option Str)
  | raise (status : Int)
  | outOfScript
deriving DecidableEq

/-- `YouTubeUploader._resumable_upload`: loops until a response arrives;
a failure stores an error string, and the `if error:` truthiness guard
runs the retry bookkeeping only when that string is non-empty.  A retriable
`HttpError` stores `f"HTTP {status}: {content}"`, which is never empty, so
it is always counted; a retriable transport exception stores `str(e)`,
which can be empty (e.g. a bare `IOError()`), in which case the loop simply
calls `next_chunk()` again without incrementing `retry`, sleeping, or ever
returning `None` for it.  Once `retry > MAX_RETRIES` the loop returns
`None`; a non-retriable `HttpError` is re-raised. -/
def resumable_upload : List ChunkOutcome → Nat → LoopResult
  | [], _ => .outOfScript
  | .progress :: rest, retry => resumable_upload rest retry
  | .done vid :: _, _ => .ret vid
  | .httpErr s :: rest, retry =>
      if s ∈ RETRIABLE_STATUS_CODES then
        if retry + 1 > MAX_RETRIES then .ret none else resumable_upload rest (retry + 1)
      else .raise s
  | .transportErr msg :: rest, retry =>
      if msg.isEmpty then resumable_upload rest retry
      else if retry + 1 > MAX_RETRIES then .ret none else resumable_upload rest (retry + 1)

/-- An outcome of a `next_chunk()` call that the retry loop treats as a
retriable failure. -/
def retriableFailure : ChunkOutcome → Bool
  | .httpErr s => decide (s ∈ RETRIABLE_STATUS_CODES)
  | .transportErr _ => true
  | _ => false

/-- A retriable failure that the `if error:` guard actually counts toward
`MAX_RETRIES`: a retriable HTTP status (its formatted message is never
empty), or a transport exception whose `str(e)` is non-empty. -/
def countedFailure : ChunkOutcome → Bool
  | .httpErr s => decide (s ∈ RETRIABLE_STATUS_CODES)
  | .transportErr msg => !msg.isEmpty
  | _ => false

/-- Outcome of the `thumbnails().set(...).execute()` request. -/
inductive ThumbSetOutcome
  | ok
  | httpErr (status : Int)
  | exc
deriving DecidableEq

/-- `YouTubeUploader._set_thumbnail`: returns `True` on success and `False`
on any `HttpError` (including 403 permission denial) or other exception;
it never raises. -/
def set_thumbnail (o : ThumbSetOutcome) : Bool :=
  match o with
  | .ok => true
  | .httpErr _ => false
  | .exc => false

/-- Environment of one `YouTubeUploader.upload` call: whether the video file
exists, whether a thumbnail path was passed and whether that file exists,
the scripted `next_chunk()` outcomes, and the thumbnail-set outcome. -/
structure UploadEnv where
  videoExists : Bool
  thumbGiven : Bool
  thumbExists : Bool
  chunkScript : List ChunkOutcome
  thumbSet : ThumbSetOutcome
deriving DecidableEq

/-- Return value of `upload` (`Optional[str]`), or the script-exhaustion
modelling artifact. -/
inductive UploadResult
  | ret (v : Option Str)
  | outOfScript
deriving DecidableEq

/-- Observable trace of one `upload` call: its return value, whether the
media/insert request was ever constructed, and whether the thumbnail attach
step ran and with which result. -/
structure UploadTrace where
  result : UploadResult
  requestBuilt : Bool
  attachAttempted : Bool
  attachResult : Option Bool
deriving DecidableEq

/-- `YouTubeUploader.upload`: returns `None` immediately when the video file
does not exist; otherwise builds the insert request and runs the resumable
loop.  A raised `HttpError` (or any exception) is caught and turned into
`None`; on success the custom thumbnail is attached best-effort, with the
attach result discarded. -/
def YouTubeUploader.upload (env : UploadEnv) : UploadTrace :=
  if !env.videoExists then
    { result := .ret none, requestBuilt := false, attachAttempted := false, attachResult := none }
  else
    match resumable_upload env.chunkScript 0 with
    | .outOfScript =>
        { result := .outOfScript, requestBuilt := true,
          attachAttempted := false, attachResult := none }
    | .raise _ =>
        { result := .ret none, requestBuilt := true,
          attachAttempted := false, attachResult := none }
    | .ret none =>
        { result := .ret none, requestBuilt := true,
          attachAttempted := false, attachResult := none }
    | .ret (some vid) =>
        if env.thumbGiven && env.thumbExists then
          { result := .ret (some vid), requestBuilt := true,
            attachAttempted := true, attachResult := some (set_thumbnail env.thumbSet) }
        else
          { result := .ret (some vid), requestBuilt := true,
            attachAttempted := false, attachResult := none }

/-! ## Clip Orchestrator and Batch Runner (clip_creator.py)

External effects are modelled by outcome oracles: each subprocess call and
each network interaction is described by a scripted outcome, and the three
per-clip temporary files are tracked in an explicit file-system state. -/

/-- Python exceptions relevant to the pipeline. -/
inductive PyErr
  | valueError
  | fileNotFound
  | other (msg : Str)
deriving DecidableEq

/-- The message `str(e)` recorded for a caught exception. -/
def PyErr.msg : PyErr → Str
  | .valueError => pys "invalid literal for int() with base 10"
  | .fileNotFound => pys "FileNotFoundError"
  | .other m => m

/-- Result of one external process invocation (`subprocess.run`). -/
inductive RunResult
  | exited (code : Int)
  | timedOut
  | raised
deriving DecidableEq

/-- Outcome of one external tool step: how the process ended and whether the
destination file exists afterwards. -/
structure StepOutcome where
  result : RunResult
  fileCreated : Bool
deriving DecidableEq

/-- Content provenance of the generated thumbnail file. -/
inductive ThumbSrc
  | generated
  | frameCopy
deriving DecidableEq

/-- The three per-clip temporary files: the downloaded segment, the captured
frame, and the thumbnail (with its content provenance when present). -/
structure FS where
  video : Bool
  frame : Bool
  thumb : Option ThumbSrc
deriving DecidableEq

/-- The state with no temporary files. -/
def emptyFS : FS := { video := false, frame := false, thumb := none }

/-- `cleanup_temp_files(video_path, frame_path, thumbnail_path)`: unlinks
each of the three paths that exists, swallowing unlink errors. -/
def cleanup_temp_files (_ : FS) : FS := emptyFS

/-- `download_clip_segment`: parses both timestamps (a malformed one raises
`ValueError` before the subprocess starts), then reports success iff the
downloader exited 0 and the destination file exists; timeout and any other
exception yield `False`. -/
def download_clip_segment (start_time end_time : Str) (o : StepOutcome) :
    Except PyErr Bool :=
  match time_to_seconds start_time, time_to_seconds end_time with
  | some _, some _ =>
      .ok (match o.result with
           | .exited code => decide (code = 0) && o.fileCreated
           | .timedOut => false
           | .raised => false)
  | _, _ => .error .valueError

/-- `capture_thumbnail_frame`: reports success iff ffmpeg exited 0 and the
frame file exists; timeout and any other exception yield `False`. -/
def capture_thumbnail_frame (o : StepOutcome) : Bool :=
  match o.result with
  | .exited code => decide (code = 0) && o.fileCreated
  | .timedOut => false
  | .raised => false

/-- Outcome of the ChatGPT thumbnail generation: `generate` returned
(`success`, and whether the output file exists afterwards), or the generator
raised. -/
inductive EnhanceOutcome
  | ok (success : Bool) (created : Bool)
  | raise
deriving DecidableEq

/-- `generate_thumbnail_chatgpt`: on a successful generation the output file
holds the generated image; any other outcome (including an exception) falls
back to copying the captured frame over the thumbnail path, which raises
`FileNotFoundError` only if the frame file is missing.  The function returns
`True` on every non-raising path. -/
def generate_thumbnail_chatgpt (o : EnhanceOutcome) (frameExists : Bool) :
    Except PyErr ThumbSrc :=
  match o with
  | .ok success created =>
      if success && created then .ok .generated
      else if frameExists then .ok .frameCopy
      else .error .fileNotFound
  | .raise =>
      if frameExists then .ok .frameCopy
      else .error .fileNotFound

/-- The Thumbnail Enhancer "failed for some reason": `generate` returned
without a usable generated file, or raised. -/
def enhanceFailed : EnhanceOutcome → Bool
  | .ok success created => !(success && created)
  | .raise => true

/-- Return value of `upload_to_youtube` (`Optional[str]`), or the
script-exhaustion modelling artifact. -/
inductive UploadOutcome
  | val (v : Option Str)
  | outOfScript
deriving DecidableEq

/-- `upload_to_youtube`: constructs the `YouTubeUploader` (whose credential
loading may raise) and calls `upload`; every exception is caught and turned
into `None`. -/
def upload_to_youtube (initFails : Bool) (uenv : UploadEnv) : UploadOutcome :=
  if initFails then .val none
  else
    match (YouTubeUploader.upload uenv).result with
    | .ret v => .val v
    | .outOfScript => .outOfScript

/-- A Clip Descriptor as read from the analysis artifact; absent keys are
`none` and take the source's `dict.get` defaults. -/
structure ClipData where
  clip_id : Option Str
  title : Option Str
  start_time : Option Str
  end_time : Option Str
  thumbnail_timestamp : Option Str
deriving DecidableEq

/-- `clip_data.get("start_time", "00:00:00")`. -/
def ClipData.getStart (c : ClipData) : Str := c.start_time.getD (pys "00:00:00")

/-- `clip_data.get("end_time", "00:01:00")`. -/
def ClipData.getEnd (c : ClipData) : Str := c.end_time.getD (pys "00:01:00")

/-- `clip_data.get("thumbnail_timestamp", clip_data.get("start_time", "00:00:00"))`. -/
def ClipData.getThumbTs (c : ClipData) : Str := c.thumbnail_timestamp.getD c.getStart

/-- `clip_data.get("clip_id", f"clip_{clip_index}")`. -/
def effClipId (c : ClipData) (i : Nat) : Str := c.clip_id.getD (pys ("clip_" ++ Nat.repr i))

/-- Scripted outcomes of the external interactions of one clip's pipeline. -/
structure ClipEnv where
  download : StepOutcome
  capture : StepOutcome
  enhance : EnhanceOutcome
  uploaderInitFails : Bool
  chunkScript : List ChunkOutcome
  thumbSet : ThumbSetOutcome
  initFS : FS
deriving DecidableEq

/-- A Clip Outcome record as built by `process_clip`. -/
structure Outcome where
  clip_id : Str
  title : Option Str
  status : Str
  video_id : Option Str
  error : Option Str
deriving DecidableEq

/-- Which image file was handed to the upload step as the thumbnail. -/
inductive ThumbSource
  | enhanced
  | originalFrame
deriving DecidableEq

/-- Result of `process_clip`: the Clip Outcome, the temporary-file state
after the `finally` cleanup, and control-flow observables (whether the
upload and the enhancement steps ran, and which thumbnail was used). -/
structure ClipRes where
  outcome : Outcome
  fs : FS
  uploadAttempted : Bool
  enhanceAttempted : Bool
  thumbUsed : Option ThumbSource
deriving DecidableEq

/-- The thumbnail-enhancement stage of `process_clip` (step 3): runs only
when the frame file exists; an exception from `generate_thumbnail_chatgpt`
is caught and answered by copying the frame over the thumbnail path (which
itself raises when the frame file is missing). -/
def enhance_step (o : EnhanceOutcome) (fs2 : FS) : Except PyErr FS :=
  if fs2.frame then
    match generate_thumbnail_chatgpt o fs2.frame with
    | .ok src => .ok { fs2 with thumb := some src }
    | .error e =>
        if fs2.frame then .ok { fs2 with thumb := some ThumbSrc.frameCopy }
        else .error e
  else .ok fs2

/-- Which image the upload step receives as its thumbnail, given the
temporary-file state: the thumbnail file when it exists (carrying its
provenance), else the raw frame when that exists, else nothing. -/
def tuOf (fs3 : FS) : Option ThumbSource :=
  match fs3.thumb with
  | some ThumbSrc.generated => some .enhanced
  | some ThumbSrc.frameCopy => some .originalFrame
  | none => if fs3.frame then some .originalFrame else none

/-- The upload environment `process_clip` hands to `upload_to_youtube`:
the chosen thumbnail path (thumbnail file if it exists, else the frame path)
is passed exactly when that file exists. -/
def uenvOf (env : ClipEnv) (fs3 : FS) : UploadEnv :=
  { videoExists := fs3.video,
    thumbGiven := fs3.thumb.isSome || fs3.frame,
    thumbExists := fs3.thumb.isSome || fs3.frame,
    chunkScript := env.chunkScript,
    thumbSet := env.thumbSet }

/-- The upload stage of `process_clip` (step 4): uploads the segment with
the thumbnail file if it exists, else the raw frame if that exists, else no
thumbnail; the upload's `Optional[str]` decides `success` versus `failed`. -/
def upload_step (cid : Str) (title : Option Str) (env : ClipEnv)
    (frameAttempted : Bool) (fs3 : FS) : Option ClipRes :=
  let tu : Option ThumbSource := tuOf fs3
  match upload_to_youtube env.uploaderInitFails (uenvOf env fs3) with
  | .outOfScript => none
  | .val (some vid) => some {
      outcome := { clip_id := cid, title := title, status := pys "success",
                   video_id := some vid, error := none },
      fs := cleanup_temp_files fs3, uploadAttempted := true,
      enhanceAttempted := frameAttempted, thumbUsed := tu }
  | .val none => some {
      outcome := { clip_id := cid, title := title, status := pys "failed",
                   video_id := none, error := some (pys "Falha no upload") },
      fs := cleanup_temp_files fs3, uploadAttempted := true,
      enhanceAttempted := frameAttempted, thumbUsed := tu }

/-- `process_clip`: one clip's pipeline.  Download failure ends the clip as
`failed`; the frame-capture result is discarded; enhancement runs only when
the frame file exists; the upload's `Optional[str]` decides
`success`/`failed`; any exception inside the `try` is caught and recorded as
an `error` outcome; the `finally` block removes the temporary files on every
path.  `none` is the modelling artifact of an exhausted chunk script. -/
def process_clip (clip_data : ClipData) (clip_index : Nat) (env : ClipEnv)
    (fs0 : FS) : Option ClipRes :=
  match download_clip_segment clip_data.getStart clip_data.getEnd env.download with
  | .error e => some {
      outcome := { clip_id := effClipId clip_data clip_index, title := clip_data.title,
                   status := pys "error", video_id := none, error := some e.msg },
      fs := cleanup_temp_files (FS.mk env.download.fileCreated fs0.frame fs0.thumb),
      uploadAttempted := false, enhanceAttempted := false, thumbUsed := none }
  | .ok false => some {
      outcome := { clip_id := effClipId clip_data clip_index, title := clip_data.title,
                   status := pys "failed", video_id := none,
                   error := some (pys "Falha no download do segmento") },
      fs := cleanup_temp_files (FS.mk env.download.fileCreated fs0.frame fs0.thumb),
      uploadAttempted := false, enhanceAttempted := false, thumbUsed := none }
  | .ok true =>
    match time_to_seconds clip_data.getStart, time_to_seconds clip_data.getThumbTs with
    | some _start_sec, some _thumb_sec =>
      match enhance_step env.enhance
          (FS.mk env.download.fileCreated env.capture.fileCreated fs0.thumb) with
      | .error e => some {
          outcome := { clip_id := effClipId clip_data clip_index, title := clip_data.title,
                       status := pys "error", video_id := none, error := some e.msg },
          fs := cleanup_temp_files
            (FS.mk env.download.fileCreated env.capture.fileCreated fs0.thumb),
          uploadAttempted := false, enhanceAttempted := env.capture.fileCreated,
          thumbUsed := none }
      | .ok fs3 => upload_step (effClipId clip_data clip_index) clip_data.title env
          env.capture.fileCreated fs3
    | _, _ => some {
        outcome := { clip_id := effClipId clip_data clip_index, title := clip_data.title,
                     status := pys "error", video_id := none,
                     error := some PyErr.valueError.msg },
        fs := cleanup_temp_files (FS.mk env.download.fileCreated fs0.frame fs0.thumb),
        uploadAttempted := false, enhanceAttempted := false, thumbUsed := none }

/-- The Batch Runner's per-clip loop (`main`), collecting one Clip Outcome
per Clip Descriptor in input order, starting at index `i`. -/
def processAllFrom : List (ClipData × ClipEnv) → Nat → Option (List Outcome)
  | [], _ => some []
  | (c, e) :: rest, i => do
      let r ← process_clip c i e e.initFS
      let os ← processAllFrom rest (i + 1)
      pure (r.outcome :: os)

/-- The Batch Runner's loop over the whole clip list. -/
def processAll (l : List (ClipData × ClipEnv)) : Option (List Outcome) :=
  processAllFrom l 0

/-- The Batch Summary persisted by `save_processing_log`. -/
structure Summary where
  total_clips : Nat
  successful : Nat
  failed : Nat
  clips : List Outcome
deriving DecidableEq

/-- `save_processing_log`: aggregates the outcome list into the summary;
`successful` counts `success` outcomes and `failed` counts both `failed`
and `error` outcomes. -/
def save_processing_log (results : List Outcome) : Summary :=
  { total_clips := results.length,
    successful := (results.filter (fun r => decide (r.status = pys "success"))).length,
    failed := (results.filter
      (fun r => decide (r.status = pys "failed") || decide (r.status = pys "error"))).length,
    clips := results }

/-- Effective clip identifiers of a descriptor list, in input order,
starting at index `i`. -/
def effIds : List (ClipData × ClipEnv) → Nat → List Str
  | [], _ => []
  | (c, _) :: rest, i => effClipId c i :: effIds rest (i + 1)

/-- A Clip Descriptor with every key absent (all `dict.get` defaults). -/
def cDefault : ClipData := ClipData.mk none none none none none

/-- A scripted environment in which every step succeeds and the upload
returns id `v1`. -/
def envSuccess : ClipEnv :=
  ClipEnv.mk (StepOutcome.mk (RunResult.exited 0) true)
    (StepOutcome.mk (RunResult.exited 0) true)
    (EnhanceOutcome.ok true true) false
    [ChunkOutcome.done (some (pys "v1"))] ThumbSetOutcome.ok emptyFS

/-- A scripted environment in which the segment download exits non-zero
without creating the file. -/
def envDownloadFail : ClipEnv :=
  ClipEnv.mk (StepOutcome.mk (RunResult.exited 1) false)
    (StepOutcome.mk (RunResult.exited 0) true)
    (EnhanceOutcome.ok true true) false
    [] ThumbSetOutcome.ok emptyFS

/-- A two-clip batch: the first clip succeeds, the second one's download
fails. -/
def sampleBatch : List (ClipData × ClipEnv) :=
  [(cDefault, envSuccess), (cDefault, envDownloadFail)]

/-- The outcome list the sample batch produces. -/
def sampleResults : List Outcome :=
  [Outcome.mk (pys "clip_0") none (pys "success") (some (pys "v1")) none,
   Outcome.mk (pys "clip_1") none (pys "failed") none
     (some (pys "Falha no download do segmento"))]

/-! ## Theorems -/

example : time_to_seconds (pys "01:02:03") = some 3723 := by decide
example : time_to_seconds (pys "02:30") = some 150 := by decide
example : time_to_seconds (pys "45") = some 45 := by decide
example : seconds_to_time 3723 = pys "01:02:03" := by decide

/-! ## Round-trip lemmas for the Time Codec -/

theorem digitsVal_append_singleton (xs : Str) (c : Char) :
    digitsVal (xs ++ [c]) = 10 * digitsVal xs + (c.toNat - 48) := by
  simp [digitsVal, List.foldl_append]

theorem digitChar_toNat (d : Nat) (h : d < 10) : (digitChar d).toNat = 48 + d := by
  interval_cases d <;> decide

theorem digitChar_isDigit (d : Nat) (h : d < 10) : (digitChar d).isDigit = true := by
  interval_cases d <;> decide

theorem natReprAux_val (fuel : Nat) : ∀ n : Nat, n ≤ fuel →
    digitsVal (natReprAux fuel n) = n := by
  induction fuel with
  | zero =>
    intro n hn
    interval_cases n
    simp [natReprAux, digitsVal]
  | succ fuel ih =>
    intro n hn
    by_cases h0 : n = 0
    · simp [natReprAux, h0, digitsVal]
    · have hdiv : n / 10 ≤ fuel := by omega
      have hmod : n % 10 < 10 := Nat.mod_lt _ (by omega)
      simp only [natReprAux, h0, if_false, digitsVal_append_singleton,
        ih (n / 10) hdiv, digitChar_toNat _ hmod]
      omega

theorem natReprAux_digits (fuel : Nat) : ∀ n : Nat,
    (natReprAux fuel n).all Char.isDigit = true := by
  induction fuel with
  | zero => intro n; rfl
  | succ fuel ih =>
    intro n
    by_cases h0 : n = 0
    · simp [natReprAux, h0]
    · have hmod : n % 10 < 10 := Nat.mod_lt _ (by omega)
      simp [natReprAux, h0, List.all_append, ih (n / 10), digitChar_isDigit _ hmod]

theorem natRepr_val (n : Nat) : digitsVal (natRepr n) = n := by
  by_cases h0 : n = 0
  · simp [natRepr, h0]; rfl
  · simp [natRepr, h0, natReprAux_val n n le_rfl]

theorem natRepr_digits (n : Nat) : (natRepr n).all Char.isDigit = true := by
  by_cases h0 : n = 0
  · simp [natRepr, h0]
  · simp [natRepr, h0, natReprAux_digits n n]

theorem natRepr_ne_nil (n : Nat) : natRepr n ≠ [] := by
  by_cases h0 : n = 0
  · simp [natRepr, h0]
  · obtain ⟨m, rfl⟩ : ∃ m, n = m + 1 := ⟨n - 1, by omega⟩
    simp [natRepr, natReprAux]

theorem foldl_step_zeros (k : Nat) :
    List.foldl (fun a c => 10 * a + (c.toNat - 48)) 0 (List.replicate k '0') = 0 := by
  induction k with
  | zero => rfl
  | succ k ih =>
    rw [List.replicate_succ, List.foldl_cons]
    have h : (10 * 0 + ('0'.toNat - 48)) = 0 := by decide
    rw [h]
    exact ih

theorem digitsVal_pad2 (s : Str) : digitsVal (pad2 s) = digitsVal s := by
  simp [pad2, digitsVal, List.foldl_append, foldl_step_zeros]

theorem pad2_digits (s : Str) (h : s.all Char.isDigit = true) :
    (pad2 s).all Char.isDigit = true := by
  simp only [pad2, List.all_append, h, Bool.and_true]
  rw [List.all_eq_true]
  intro c hc
  rw [List.eq_of_mem_replicate hc]
  decide

theorem pad2_ne_nil (s : Str) (h : s ≠ []) : pad2 s ≠ [] := by
  simp [pad2, h]

theorem no_colon_of_digits (s : Str) (h : s.all Char.isDigit = true) : ':' ∉ s := by
  intro hm
  have hd := List.all_eq_true.mp h _ hm
  exact absurd hd (by decide)

theorem dropWhile_spaces_of_digits (s : Str) (h : s.all Char.isDigit = true) :
    s.dropWhile (fun c => c = ' ') = s := by
  cases s with
  | nil => rfl
  | cons c cs =>
    have hc : Char.isDigit c = true := by
      have := List.all_eq_true.mp h c (by simp)
      simpa using this
    have hne : c ≠ ' ' := by
      intro e
      rw [e] at hc
      exact absurd hc (by decide)
    simp [List.dropWhile_cons, hne]

theorem stripSpaces_of_digits (s : Str) (h : s.all Char.isDigit = true) :
    stripSpaces s = s := by
  have h2 : s.reverse.all Char.isDigit = true := by
    rw [List.all_eq_true]
    intro c hc
    exact List.all_eq_true.mp h c (List.mem_reverse.mp hc)
  simp [stripSpaces, dropWhile_spaces_of_digits s h, dropWhile_spaces_of_digits _ h2]

theorem pyIntCore_digits (t : Str) (hne : t ≠ []) (h : t.all Char.isDigit = true) :
    pyIntCore t = some ((digitsVal t : Int)) := by
  rcases List.exists_cons_of_ne_nil hne with ⟨c, ds, rfl⟩
  have hc : Char.isDigit c = true := by
    have := List.all_eq_true.mp h c (by simp)
    simpa using this
  have hm : c ≠ '-' := by
    intro e; rw [e] at hc; exact absurd hc (by decide)
  have hp : c ≠ '+' := by
    intro e; rw [e] at hc; exact absurd hc (by decide)
  simp [pyIntCore, hm, hp, h]

theorem pyInt_digits (t : Str) (hne : t ≠ []) (h : t.all Char.isDigit = true) :
    pyInt t = some ((digitsVal t : Int)) := by
  rw [pyInt, stripSpaces_of_digits t h, pyIntCore_digits t hne h]

theorem pyInt_pad2_natRepr (k : Nat) : pyInt (pad2 (natRepr k)) = some ((k : Int)) := by
  rw [pyInt_digits _ (pad2_ne_nil _ (natRepr_ne_nil k)) (pad2_digits _ (natRepr_digits k)),
    digitsVal_pad2, natRepr_val]

theorem splitOnColon_ne_nil (s : Str) : splitOnColon s ≠ [] := by
  induction s with
  | nil => simp [splitOnColon]
  | cons c rest ih =>
    simp only [splitOnColon]
    split
    · split <;> simp
    · split <;> simp

theorem splitOnColon_no_colon (s : Str) (h : ':' ∉ s) : splitOnColon s = [s] := by
  induction s with
  | nil => rfl
  | cons c rest ih =>
    rw [List.mem_cons, not_or] at h
    have hc : ¬ c = ':' := fun e => h.1 e.symm
    simp [splitOnColon, ih h.2, hc]

theorem splitOnColon_append (a b : Str) (h : ':' ∉ a) :
    splitOnColon (a ++ ':' :: b) = a :: splitOnColon b := by
  induction a with
  | nil =>
    rcases hsp : splitOnColon b with _ | ⟨p, ps⟩
    · exact absurd hsp (splitOnColon_ne_nil b)
    · simp [splitOnColon, hsp]
  | cons c a ih =>
    rw [List.mem_cons, not_or] at h
    have hc : ¬ c = ':' := fun e => h.1 e.symm
    simp [splitOnColon, ih h.2, hc]

theorem intRepr_natCast (k : Nat) : intRepr (k : Int) = natRepr k := by
  simp [intRepr]

theorem seconds_to_time_natCast (n : Nat) :
    seconds_to_time (n : Int) =
      pad2 (natRepr (n / 3600)) ++ ':' ::
        (pad2 (natRepr (n % 3600 / 60)) ++ ':' :: pad2 (natRepr (n % 60))) := by
  have h1 : ((n : Int) / 3600) = ((n / 3600 : Nat) : Int) := by exact_mod_cast rfl
  have h2 : ((n : Int) % 3600 / 60) = ((n % 3600 / 60 : Nat) : Int) := by exact_mod_cast rfl
  have h3 : ((n : Int) % 60) = ((n % 60 : Nat) : Int) := by exact_mod_cast rfl
  rw [seconds_to_time]
  rw [h1, h2, h3, intRepr_natCast, intRepr_natCast, intRepr_natCast]

/-- C6: for every non-negative integer `n`, parsing the formatted clock
string of `n` returns `n` again: `time_to_seconds (seconds_to_time n) = n`. -/
theorem parse_format_roundtrip (n : Nat) :
    time_to_seconds (seconds_to_time (n : Int)) = some ((n : Int)) := by
  rw [seconds_to_time_natCast]
  have hA := pad2_digits _ (natRepr_digits (n / 3600))
  have hB := pad2_digits _ (natRepr_digits (n % 3600 / 60))
  have hC := pad2_digits _ (natRepr_digits (n % 60))
  have hsplit : splitOnColon
      (pad2 (natRepr (n / 3600)) ++ ':' ::
        (pad2 (natRepr (n % 3600 / 60)) ++ ':' :: pad2 (natRepr (n % 60)))) =
      [pad2 (natRepr (n / 3600)), pad2 (natRepr (n % 3600 / 60)), pad2 (natRepr (n % 60))] := by
    rw [splitOnColon_append _ _ (no_colon_of_digits _ hA),
      splitOnColon_append _ _ (no_colon_of_digits _ hB),
      splitOnColon_no_colon _ (no_colon_of_digits _ hC)]
  rw [time_to_seconds, hsplit]
  simp only [pyInt_pad2_natRepr, Option.bind_eq_bind, Option.some_bind]
  congr 1
  have : (n / 3600) * 3600 + (n % 3600 / 60) * 60 + (n % 60) = n := by omega
  push_cast
  linarith [congrArg (fun k : Nat => (k : Int)) this]

/-- C7 counterexample: the time parser does not reject a four-field shape;
`time_to_seconds "1:2:3:4"` returns 1 (the first field parsed as a bare
integer) instead of raising a format error. -/
theorem time_to_seconds_four_fields : time_to_seconds (pys "1:2:3:4") = some 1 := by decide

/-- C7 (amended): the time parser accepts `H:M:S` and `M:S`; for every input
whose colon-split has any other field count (one field, or four and more) it
parses just the first colon-separated field as a bare integer, raising a
format error only when that field is not an integer literal. -/
theorem time_to_seconds_fallback (s : Str)
    (h2 : (splitOnColon s).length ≠ 2) (h3 : (splitOnColon s).length ≠ 3) :
    time_to_seconds s = pyInt ((splitOnColon s).headD []) := by
  rcases hsp : splitOnColon s with _ | ⟨a, _ | ⟨b, _ | ⟨c, _ | ⟨d, rest⟩⟩⟩⟩ <;>
    rw [hsp] at h2 h3 <;> simp [time_to_seconds, hsp] <;> simp at h2 h3

/-- C7 witness: the fallback equation instantiated at the concrete four-field
input `"1:2:3:4"`. -/
theorem time_to_seconds_fallback_witness :
    ((splitOnColon (pys "1:2:3:4")).length ≠ 2 ∧ (splitOnColon (pys "1:2:3:4")).length ≠ 3) ∧
      time_to_seconds (pys "1:2:3:4") = pyInt ((splitOnColon (pys "1:2:3:4")).headD []) :=
  ⟨⟨by decide, by decide⟩, time_to_seconds_fallback _ (by decide) (by decide)⟩

theorem download_ok_parses (st en : Str) (o : StepOutcome) (b : Bool)
    (h : download_clip_segment st en o = .ok b) :
    (∃ v, time_to_seconds st = some v) ∧ (∃ w, time_to_seconds en = some w) := by
  unfold download_clip_segment at h
  rcases hst : time_to_seconds st with _ | v <;> rw [hst] at h
  · exact absurd h (by simp)
  · rcases hen : time_to_seconds en with _ | w <;> rw [hen] at h
    · exact absurd h (by simp)
    · exact ⟨⟨v, rfl⟩, ⟨w, rfl⟩⟩

theorem download_ok_fileCreated (st en : Str) (o : StepOutcome)
    (h : download_clip_segment st en o = .ok true) : o.fileCreated = true := by
  unfold download_clip_segment at h
  rcases hst : time_to_seconds st with _ | v <;> rw [hst] at h
  · exact absurd h (by simp)
  · rcases hen : time_to_seconds en with _ | w <;> rw [hen] at h
    · exact absurd h (by simp)
    · rcases o with ⟨res, fc⟩
      cases res with
      | exited code =>
        simp at h
        exact h.2
      | timedOut => simp at h
      | raised => simp at h

/-- C8: a failing thumbnail-attach step (including a 403 permission denial)
never downgrades a successful upload: `upload` still returns the video id. -/
theorem upload_attach_failure_tolerated (env : UploadEnv) (vid : Str)
    (hvid : env.videoExists = true)
    (hres : resumable_upload env.chunkScript 0 = .ret (some vid))
    (hgiven : env.thumbGiven = true) (hexists : env.thumbExists = true)
    (hfail : set_thumbnail env.thumbSet = false) :
    (YouTubeUploader.upload env).result = .ret (some vid) ∧
      (YouTubeUploader.upload env).attachAttempted = true ∧
      (YouTubeUploader.upload env).attachResult = some false := by
  simp [YouTubeUploader.upload, hvid, hres, hgiven, hexists, hfail]

/-- C8 witness: a concrete successful upload whose thumbnail attach is
denied with HTTP 403 still returns the video id. -/
theorem upload_attach_failure_tolerated_witness :
    set_thumbnail (ThumbSetOutcome.httpErr 403) = false ∧
    (YouTubeUploader.upload (UploadEnv.mk true true true
        [ChunkOutcome.done (some (pys "vid123"))] (ThumbSetOutcome.httpErr 403))).result =
      .ret (some (pys "vid123")) :=
  ⟨by decide, (upload_attach_failure_tolerated _ _ (by decide) (by decide) (by decide) (by decide) (by decide)).1⟩

/-- C9: when the video file does not exist, `upload` returns `None`
immediately, without constructing the media/insert request and without
consuming any chunk outcome, for every script. -/
theorem upload_missing_video (env : UploadEnv) (h : env.videoExists = false) :
    YouTubeUploader.upload env =
      { result := .ret none, requestBuilt := false,
        attachAttempted := false, attachResult := none } := by
  simp [YouTubeUploader.upload, h]

/-- C9 witness: the missing-video early return at a concrete environment
with a non-empty chunk script. -/
theorem upload_missing_video_witness :
    YouTubeUploader.upload (UploadEnv.mk false true true
        [ChunkOutcome.done (some (pys "vid123"))] ThumbSetOutcome.ok) =
      { result := .ret none, requestBuilt := false,
        attachAttempted := false, attachResult := none } :=
  upload_missing_video _ (by decide)

theorem resumable_upload_skips_empty_msg (rest : List ChunkOutcome) (retry : Nat) :
    resumable_upload (ChunkOutcome.transportErr [] :: rest) retry =
      resumable_upload rest retry := by
  simp [resumable_upload]

theorem resumable_upload_give_up (fails : List ChunkOutcome) :
    ∀ (r : Nat) (rest : List ChunkOutcome),
      (∀ o ∈ fails, countedFailure o = true) →
      MAX_RETRIES + 1 ≤ fails.length + r → r ≤ MAX_RETRIES →
      resumable_upload (fails ++ rest) r = .ret none := by
  induction fails with
  | nil =>
    intro r rest _ hlen hr
    simp only [List.length_nil, Nat.zero_add] at hlen
    omega
  | cons o fails ih =>
    intro r rest hall hlen hr
    have ho : countedFailure o = true := hall o (by simp)
    have htail : ∀ o ∈ fails, countedFailure o = true :=
      fun o ho' => hall o (by simp [ho'])
    cases o with
    | progress => simp [countedFailure] at ho
    | done vid => simp [countedFailure] at ho
    | httpErr s =>
      have hs : s ∈ RETRIABLE_STATUS_CODES := by simpa [countedFailure] using ho
      by_cases hgt : r + 1 > MAX_RETRIES
      · simp [resumable_upload, hs, hgt]
      · have hrec := ih (r + 1) rest htail (by simp at hlen ⊢; omega) (by omega)
        simp [resumable_upload, hs, hgt, hrec]
    | transportErr msg =>
      have hm : msg.isEmpty = false := by simpa [countedFailure] using ho
      by_cases hgt : r + 1 > MAX_RETRIES
      · simp [resumable_upload, hm, hgt]
      · have hrec := ih (r + 1) rest htail (by simp at hlen ⊢; omega) (by omega)
        simp [resumable_upload, hm, hgt, hrec]

theorem enhance_step_no_frame (o : EnhanceOutcome) (fs2 : FS) (h : fs2.frame = false) :
    enhance_step o fs2 = .ok fs2 := by
  simp [enhance_step, h]

theorem enhance_step_frame (o : EnhanceOutcome) (fs2 : FS) (h : fs2.frame = true) :
    ∃ src, enhance_step o fs2 = .ok { fs2 with thumb := some src } := by
  unfold enhance_step
  rw [h]
  cases o with
  | ok success created =>
    by_cases hsc : (success && created) = true
    · exact ⟨ThumbSrc.generated, by simp [generate_thumbnail_chatgpt, hsc]⟩
    · exact ⟨ThumbSrc.frameCopy, by simp [generate_thumbnail_chatgpt, hsc]⟩
  | raise => exact ⟨ThumbSrc.frameCopy, by simp [generate_thumbnail_chatgpt]⟩

theorem enhance_step_failed (o : EnhanceOutcome) (fs2 : FS) (h : fs2.frame = true)
    (hf : enhanceFailed o = true) :
    enhance_step o fs2 = .ok { fs2 with thumb := some ThumbSrc.frameCopy } := by
  unfold enhance_step
  rw [h]
  cases o with
  | ok success created =>
    have hsc : (success && created) = false := by
      have := by simpa [enhanceFailed] using hf
      rcases this with h1 | h1 <;> simp [h1]
    simp [generate_thumbnail_chatgpt, hsc]
  | raise => simp [generate_thumbnail_chatgpt]

theorem upload_step_spec (cid : Str) (title : Option Str) (env : ClipEnv)
    (fa : Bool) (fs3 : FS) :
    upload_step cid title env fa fs3 =
      match upload_to_youtube env.uploaderInitFails (uenvOf env fs3) with
      | .outOfScript => none
      | .val (some vid) => some {
          outcome := { clip_id := cid, title := title, status := pys "success",
                       video_id := some vid, error := none },
          fs := emptyFS, uploadAttempted := true,
          enhanceAttempted := fa, thumbUsed := tuOf fs3 }
      | .val none => some {
          outcome := { clip_id := cid, title := title, status := pys "failed",
                       video_id := none, error := some (pys "Falha no upload") },
          fs := emptyFS, uploadAttempted := true,
          enhanceAttempted := fa, thumbUsed := tuOf fs3 } := rfl

theorem process_clip_ok (c : ClipData) (i : Nat) (env : ClipEnv) (fs0 : FS)
    (ss ts : Int) (fs3 : FS)
    (hdl : download_clip_segment c.getStart c.getEnd env.download = .ok true)
    (hss : time_to_seconds c.getStart = some ss)
    (hts : time_to_seconds c.getThumbTs = some ts)
    (henh : enhance_step env.enhance
      (FS.mk env.download.fileCreated env.capture.fileCreated fs0.thumb) = .ok fs3) :
    process_clip c i env fs0 =
      upload_step (effClipId c i) c.title env env.capture.fileCreated fs3 := by
  simp only [process_clip, hdl, hss, hts, henh]

/-- C2 counterexample: the retry ceiling is `retry > MAX_RETRIES`, so five
consecutive retriable next-chunk failures do NOT make `upload` return
`None`: with a script of five consecutive retriable transport failures
(each with a non-empty error string, so each one is counted) followed by a
successful response, upload returns the video id and the orchestrator
records the clip as `success`, contradicting the claim. -/
theorem five_retriable_failures_not_exhausting :
    (List.replicate 5 (ChunkOutcome.transportErr (pys "timed out"))).all
      retriableFailure = true ∧
    (List.replicate 5 (ChunkOutcome.transportErr (pys "timed out"))).all
      countedFailure = true ∧
    resumable_upload
      (List.replicate 5 (ChunkOutcome.transportErr (pys "timed out")) ++
        [ChunkOutcome.done (some (pys "vid123"))])
      0 = .ret (some (pys "vid123")) ∧
    process_clip (ClipData.mk none none none none none) 0
      (ClipEnv.mk (StepOutcome.mk (RunResult.exited 0) true)
        (StepOutcome.mk (RunResult.exited 0) true)
        (EnhanceOutcome.ok true true) false
        (List.replicate 5 (ChunkOutcome.transportErr (pys "timed out")) ++
          [ChunkOutcome.done (some (pys "vid123"))])
        ThumbSetOutcome.ok emptyFS) emptyFS =
      some (ClipRes.mk
        (Outcome.mk (pys "clip_0") none (pys "success") (some (pys "vid123")) none)
        emptyFS true true (some ThumbSource.enhanced)) :=
  ⟨by decide, by decide, by decide, by decide⟩

/-- C2 (amended): when the resumable next-chunk call fails six consecutive
times with a retriable error whose error string is non-empty (the initial
attempt plus the five retries of `MAX_RETRIES`; a retriable HTTP status
always yields a non-empty message, while a transport exception with an
empty `str(e)` is never counted by the `if error:` guard and so never
contributes to exhaustion), `upload` returns `None` rather than raising,
and the orchestrator records the clip outcome as `failed` with the
descriptive error message. -/
theorem retry_exhaustion_records_failed
    (fails rest : List ChunkOutcome)
    (hlen : fails.length = MAX_RETRIES + 1)
    (hall : ∀ o ∈ fails, countedFailure o = true)
    (c : ClipData) (i : Nat) (env : ClipEnv) (fs0 : FS)
    (hscript : env.chunkScript = fails ++ rest)
    (hinit : env.uploaderInitFails = false)
    (hdl : download_clip_segment c.getStart c.getEnd env.download = .ok true)
    (hts : (time_to_seconds c.getThumbTs).isSome = true) :
    resumable_upload env.chunkScript 0 = .ret none ∧
    ∃ r, process_clip c i env fs0 = some r ∧
      r.outcome.status = pys "failed" ∧
      r.outcome.error = some (pys "Falha no upload") ∧
      r.outcome.video_id = none := by
  obtain ⟨⟨ss, hss⟩, _⟩ := download_ok_parses _ _ _ _ hdl
  obtain ⟨ts, hts'⟩ := Option.isSome_iff_exists.mp hts
  have hfc := download_ok_fileCreated _ _ _ hdl
  have hnone : resumable_upload env.chunkScript 0 = .ret none := by
    rw [hscript]
    exact resumable_upload_give_up fails 0 rest hall (by omega) (by omega)
  refine ⟨hnone, ?_⟩
  have hfail : ∀ fs3 : FS, fs3.video = true →
      upload_to_youtube env.uploaderInitFails (uenvOf env fs3) = .val none := by
    intro fs3 hv
    simp [upload_to_youtube, YouTubeUploader.upload, hinit, hnone, uenvOf, hv]
  cases hcap : env.capture.fileCreated with
  | false =>
    have henh := enhance_step_no_frame env.enhance
      (FS.mk env.download.fileCreated env.capture.fileCreated fs0.thumb) (by rw [hcap])
    rw [process_clip_ok c i env fs0 ss ts _ hdl hss hts' henh, upload_step_spec,
      hfail _ (by simp [hfc])]
    exact ⟨_, rfl, rfl, rfl, rfl⟩
  | true =>
    obtain ⟨src, henh⟩ := enhance_step_frame env.enhance
      (FS.mk env.download.fileCreated env.capture.fileCreated fs0.thumb) (by rw [hcap])
    rw [process_clip_ok c i env fs0 ss ts _ hdl hss hts' henh, upload_step_spec,
      hfail _ (by simp [hfc])]
    exact ⟨_, rfl, rfl, rfl, rfl⟩

/-- C2 witness: the amended retry-exhaustion behavior at a concrete clip and
a script of exactly six consecutive retriable failures. -/
theorem retry_exhaustion_records_failed_witness :
    (List.replicate 6 (ChunkOutcome.transportErr (pys "timed out"))).length =
      MAX_RETRIES + 1 ∧
    (List.replicate 6 (ChunkOutcome.transportErr (pys "timed out"))).all
      countedFailure = true ∧
    resumable_upload (List.replicate 6 (ChunkOutcome.transportErr (pys "timed out"))) 0 =
      .ret none ∧
    ∃ r, process_clip (ClipData.mk none none none none none) 0
        (ClipEnv.mk (StepOutcome.mk (RunResult.exited 0) true)
          (StepOutcome.mk (RunResult.exited 0) true)
          (EnhanceOutcome.ok true true) false
          (List.replicate 6 (ChunkOutcome.transportErr (pys "timed out")))
          ThumbSetOutcome.ok emptyFS) emptyFS = some r ∧
      r.outcome.status = pys "failed" ∧
      r.outcome.error = some (pys "Falha no upload") ∧
      r.outcome.video_id = none := by
  have h := retry_exhaustion_records_failed
    (List.replicate 6 (ChunkOutcome.transportErr (pys "timed out"))) []
    (by decide) (by decide)
    (ClipData.mk none none none none none) 0
    (ClipEnv.mk (StepOutcome.mk (RunResult.exited 0) true)
      (StepOutcome.mk (RunResult.exited 0) true)
      (EnhanceOutcome.ok true true) false
      (List.replicate 6 (ChunkOutcome.transportErr (pys "timed out")))
      ThumbSetOutcome.ok emptyFS) emptyFS
    (by simp) (by decide) (by rfl) (by decide)
  exact ⟨by decide, by decide, h.1, h.2⟩

/-- C3: when the segment download reports failure (non-zero exit, missing
file, or timeout), the Clip Outcome is `failed` with the download error
message, and no upload (and no later step) is attempted. -/
theorem download_failure_no_upload (c : ClipData) (i : Nat) (env : ClipEnv)
    (fs0 : FS)
    (hdl : download_clip_segment c.getStart c.getEnd env.download = .ok false) :
    process_clip c i env fs0 = some (ClipRes.mk
      (Outcome.mk (effClipId c i) c.title (pys "failed") none
        (some (pys "Falha no download do segmento")))
      emptyFS false false none) := by
  simp only [process_clip, hdl]
  rfl

/-- C3 witness: a concrete clip whose downloader exits 1 without creating
the file ends as `failed` with no upload attempt. -/
theorem download_failure_no_upload_witness :
    download_clip_segment cDefault.getStart cDefault.getEnd envDownloadFail.download =
      .ok false ∧
    process_clip cDefault 0 envDownloadFail emptyFS = some (ClipRes.mk
      (Outcome.mk (pys "clip_0") none (pys "failed") none
        (some (pys "Falha no download do segmento")))
      emptyFS false false none) :=
  ⟨by rfl, download_failure_no_upload _ 0 _ _ (by rfl)⟩

/-- C5: on every exit path of `process_clip` (success, failure, or a caught
exception) the temporary files — segment, frame, thumbnail — no longer
exist afterwards. -/
theorem temp_files_cleaned (c : ClipData) (i : Nat) (env : ClipEnv) (fs0 : FS)
    (r : ClipRes) (h : process_clip c i env fs0 = some r) : r.fs = emptyFS := by
  unfold process_clip at h
  split at h
  · injection h with h; subst h; rfl
  · injection h with h; subst h; rfl
  · split at h
    · split at h
      · injection h with h; subst h; rfl
      · rw [upload_step_spec] at h
        split at h
        · cases h
        · injection h with h; subst h; rfl
        · injection h with h; subst h; rfl
    · injection h with h; subst h; rfl

/-- C5 witness: the cleanup invariant at a concrete fully successful clip. -/
theorem temp_files_cleaned_witness :
    process_clip cDefault 0 envSuccess emptyFS = some (ClipRes.mk
      (Outcome.mk (pys "clip_0") none (pys "success") (some (pys "v1")) none)
      emptyFS true true (some ThumbSource.enhanced)) ∧
    (ClipRes.mk
      (Outcome.mk (pys "clip_0") none (pys "success") (some (pys "v1")) none)
      emptyFS true true (some ThumbSource.enhanced)).fs = emptyFS :=
  ⟨by decide, temp_files_cleaned cDefault 0 envSuccess emptyFS _ (by decide)⟩

theorem upload_to_youtube_oos (b : Bool) (uenv : UploadEnv)
    (h : upload_to_youtube b uenv = .outOfScript) :
    resumable_upload uenv.chunkScript 0 = .outOfScript := by
  rcases hres : resumable_upload uenv.chunkScript 0 with v | s | _
  · exfalso
    cases hb : b <;> cases hv : uenv.videoExists <;> cases v <;>
      simp [upload_to_youtube, YouTubeUploader.upload, hb, hv, hres, apply_ite] at h
  · exfalso
    cases hb : b <;> cases hv : uenv.videoExists <;>
      simp [upload_to_youtube, YouTubeUploader.upload, hb, hv, hres] at h
  · rfl

theorem upload_step_attempted (cid : Str) (title : Option Str) (env : ClipEnv)
    (fa : Bool) (fs3 : FS) (r : ClipRes)
    (h : upload_step cid title env fa fs3 = some r) :
    r.uploadAttempted = true ∧ r.enhanceAttempted = fa ∧ r.thumbUsed = tuOf fs3 ∧
      (r.outcome.status = pys "success" ∨ r.outcome.status = pys "failed") := by
  rw [upload_step_spec] at h
  split at h
  · cases h
  · injection h with h; subst h; exact ⟨rfl, rfl, rfl, Or.inl rfl⟩
  · injection h with h; subst h; exact ⟨rfl, rfl, rfl, Or.inr rfl⟩

theorem upload_step_isSome (cid : Str) (title : Option Str) (env : ClipEnv)
    (fa : Bool) (fs3 : FS)
    (hterm : resumable_upload env.chunkScript 0 ≠ .outOfScript) :
    (upload_step cid title env fa fs3).isSome = true := by
  rw [upload_step_spec]
  rcases hup : upload_to_youtube env.uploaderInitFails (uenvOf env fs3) with v | _
  · cases v <;> simp
  · have hoos := upload_to_youtube_oos _ _ hup
    simp only [uenvOf] at hoos
    exact absurd hoos hterm

/-- C4: when the Thumbnail Enhancer fails for any reason (an unusable
generation result or a raised exception) while the captured frame exists,
the pipeline still proceeds to the upload step with the previously captured
frame as the thumbnail, and the clip ends as `success` or `failed` — never
an escaped exception. -/
theorem enhance_failure_still_uploads (c : ClipData) (i : Nat) (env : ClipEnv)
    (fs0 : FS)
    (hdl : download_clip_segment c.getStart c.getEnd env.download = .ok true)
    (hts : (time_to_seconds c.getThumbTs).isSome = true)
    (hcap : env.capture.fileCreated = true)
    (hfail : enhanceFailed env.enhance = true)
    (hterm : resumable_upload env.chunkScript 0 ≠ .outOfScript) :
    ∃ r, process_clip c i env fs0 = some r ∧
      r.uploadAttempted = true ∧
      r.thumbUsed = some ThumbSource.originalFrame ∧
      (r.outcome.status = pys "success" ∨ r.outcome.status = pys "failed") := by
  obtain ⟨⟨ss, hss⟩, _⟩ := download_ok_parses _ _ _ _ hdl
  obtain ⟨ts, hts'⟩ := Option.isSome_iff_exists.mp hts
  have henh := enhance_step_failed env.enhance
    (FS.mk env.download.fileCreated env.capture.fileCreated fs0.thumb) (by rw [hcap]) hfail
  have heq := process_clip_ok c i env fs0 ss ts _ hdl hss hts' henh
  have hsome : (process_clip c i env fs0).isSome = true := by
    rw [heq]; exact upload_step_isSome _ _ _ _ _ hterm
  obtain ⟨r, hr⟩ := Option.isSome_iff_exists.mp hsome
  have h3 := upload_step_attempted _ _ _ _ _ r (by rw [← heq]; exact hr)
  exact ⟨r, hr, h3.1, h3.2.2.1.trans rfl, h3.2.2.2⟩

/-- C4 witness: a concrete clip whose thumbnail generation reports failure
still uploads with the captured frame and ends as `success`. -/
theorem enhance_failure_still_uploads_witness :
    enhanceFailed (EnhanceOutcome.ok false false) = true ∧
    ∃ r, process_clip cDefault 0
        (ClipEnv.mk (StepOutcome.mk (RunResult.exited 0) true)
          (StepOutcome.mk (RunResult.exited 0) true)
          (EnhanceOutcome.ok false false) false
          [ChunkOutcome.done (some (pys "v9"))] ThumbSetOutcome.ok emptyFS)
        emptyFS = some r ∧
      r.uploadAttempted = true ∧
      r.thumbUsed = some ThumbSource.originalFrame ∧
      (r.outcome.status = pys "success" ∨ r.outcome.status = pys "failed") :=
  ⟨by decide, enhance_failure_still_uploads cDefault 0
    (ClipEnv.mk (StepOutcome.mk (RunResult.exited 0) true)
      (StepOutcome.mk (RunResult.exited 0) true)
      (EnhanceOutcome.ok false false) false
      [ChunkOutcome.done (some (pys "v9"))] ThumbSetOutcome.ok emptyFS)
    emptyFS (by rfl) (by decide) (by decide) (by decide) (by decide)⟩

/-- C10: a frame-capture failure that leaves no frame file does not fail
the clip: the capture result is discarded, enhancement is skipped, the
upload still runs with no thumbnail, and the final status is decided by the
upload result alone. -/
theorem capture_failure_upload_decides (c : ClipData) (i : Nat) (env : ClipEnv)
    (fs0 : FS)
    (hdl : download_clip_segment c.getStart c.getEnd env.download = .ok true)
    (hts : (time_to_seconds c.getThumbTs).isSome = true)
    (hcap : env.capture.fileCreated = false)
    (hthumb0 : fs0.thumb = none)
    (hterm : resumable_upload env.chunkScript 0 ≠ .outOfScript) :
    capture_thumbnail_frame env.capture = false ∧
    ∃ r, process_clip c i env fs0 = some r ∧
      r.enhanceAttempted = false ∧ r.uploadAttempted = true ∧ r.thumbUsed = none ∧
      (r.outcome.status = pys "success" ↔
        ∃ vid, upload_to_youtube env.uploaderInitFails
          (uenvOf env (FS.mk env.download.fileCreated false none)) = .val (some vid)) ∧
      (r.outcome.status = pys "success" ∨ r.outcome.status = pys "failed") := by
  have hcf : capture_thumbnail_frame env.capture = false := by
    unfold capture_thumbnail_frame
    cases hres : env.capture.result <;> simp [hcap]
  obtain ⟨⟨ss, hss⟩, _⟩ := download_ok_parses _ _ _ _ hdl
  obtain ⟨ts, hts'⟩ := Option.isSome_iff_exists.mp hts
  have henh := enhance_step_no_frame env.enhance
    (FS.mk env.download.fileCreated env.capture.fileCreated fs0.thumb) (by simpa using hcap)
  have heq := process_clip_ok c i env fs0 ss ts _ hdl hss hts' henh
  rw [hcap, hthumb0] at heq
  have hsome : (process_clip c i env fs0).isSome = true := by
    rw [heq]; exact upload_step_isSome _ _ _ _ _ hterm
  obtain ⟨r, hr⟩ := Option.isSome_iff_exists.mp hsome
  have hru : upload_step (effClipId c i) c.title env false
      (FS.mk env.download.fileCreated false none) = some r := by
    rw [← heq]; exact hr
  rw [upload_step_spec] at hru
  refine ⟨hcf, r, hr, ?_⟩
  cases hup : upload_to_youtube env.uploaderInitFails
      (uenvOf env (FS.mk env.download.fileCreated false none)) with
  | val v =>
    rw [hup] at hru
    cases v with
    | some vid =>
      injection hru with hru
      subst hru
      refine ⟨rfl, rfl, by simp [tuOf], ?_, Or.inl rfl⟩
      exact ⟨fun _ => ⟨vid, rfl⟩, fun _ => rfl⟩
    | none =>
      injection hru with hru
      subst hru
      refine ⟨rfl, rfl, by simp [tuOf], ?_, Or.inr rfl⟩
      constructor
      · intro hcontra
        exact absurd (show pys "failed" = pys "success" from hcontra) (by decide)
      · rintro ⟨vid, hvid⟩
        simp at hvid
  | outOfScript =>
    rw [hup] at hru
    cases hru

/-- C10 witness: a concrete clip whose frame capture exits 1 with no file
still uploads without a thumbnail and succeeds. -/
theorem capture_failure_upload_decides_witness :
    capture_thumbnail_frame (StepOutcome.mk (RunResult.exited 1) false) = false ∧
    ∃ r, process_clip cDefault 0
        (ClipEnv.mk (StepOutcome.mk (RunResult.exited 0) true)
          (StepOutcome.mk (RunResult.exited 1) false)
          (EnhanceOutcome.ok true true) false
          [ChunkOutcome.done (some (pys "v7"))] ThumbSetOutcome.ok emptyFS)
        emptyFS = some r ∧
      r.enhanceAttempted = false ∧ r.uploadAttempted = true ∧ r.thumbUsed = none ∧
      (r.outcome.status = pys "success" ↔
        ∃ vid, upload_to_youtube false
          (uenvOf (ClipEnv.mk (StepOutcome.mk (RunResult.exited 0) true)
            (StepOutcome.mk (RunResult.exited 1) false)
            (EnhanceOutcome.ok true true) false
            [ChunkOutcome.done (some (pys "v7"))] ThumbSetOutcome.ok emptyFS)
            (FS.mk true false none)) = .val (some vid)) ∧
      (r.outcome.status = pys "success" ∨ r.outcome.status = pys "failed") :=
  capture_failure_upload_decides cDefault 0
    (ClipEnv.mk (StepOutcome.mk (RunResult.exited 0) true)
      (StepOutcome.mk (RunResult.exited 1) false)
      (EnhanceOutcome.ok true true) false
      [ChunkOutcome.done (some (pys "v7"))] ThumbSetOutcome.ok emptyFS)
    emptyFS (by rfl) (by decide) (by decide) (by decide) (by decide)

theorem process_clip_shape (c : ClipData) (i : Nat) (env : ClipEnv) (fs0 : FS)
    (r : ClipRes) (h : process_clip c i env fs0 = some r) :
    r.outcome.clip_id = effClipId c i ∧
    (r.outcome.status = pys "success" ∨ r.outcome.status = pys "failed" ∨
      r.outcome.status = pys "error") := by
  unfold process_clip at h
  split at h
  · injection h with h; subst h; exact ⟨rfl, Or.inr (Or.inr rfl)⟩
  · injection h with h; subst h; exact ⟨rfl, Or.inr (Or.inl rfl)⟩
  · split at h
    · split at h
      · injection h with h; subst h; exact ⟨rfl, Or.inr (Or.inr rfl)⟩
      · rw [upload_step_spec] at h
        split at h
        · cases h
        · injection h with h; subst h; exact ⟨rfl, Or.inl rfl⟩
        · injection h with h; subst h; exact ⟨rfl, Or.inr (Or.inl rfl)⟩
    · injection h with h; subst h; exact ⟨rfl, Or.inr (Or.inr rfl)⟩

theorem processAllFrom_spec (l : List (ClipData × ClipEnv)) :
    ∀ (i : Nat) (results : List Outcome), processAllFrom l i = some results →
      results.length = l.length ∧
      results.map (fun o => o.clip_id) = effIds l i ∧
      ∀ r ∈ results, r.status = pys "success" ∨ r.status = pys "failed" ∨
        r.status = pys "error" := by
  induction l with
  | nil =>
    intro i results h
    simp only [processAllFrom, Option.some.injEq] at h
    subst h
    exact ⟨rfl, rfl, by simp⟩
  | cons p rest ih =>
    intro i results h
    rcases p with ⟨c, e⟩
    simp only [processAllFrom, Option.bind_eq_bind] at h
    rcases hc : process_clip c i e e.initFS with _ | r
    · rw [hc] at h; simp at h
    · rw [hc] at h
      rcases hrest : processAllFrom rest (i + 1) with _ | os
      · rw [hrest] at h; simp at h
      · rw [hrest] at h
        simp only [Option.some_bind, Option.pure_def, Option.some.injEq] at h
        subst h
        obtain ⟨hlen, hids, hstat⟩ := ih (i + 1) os hrest
        obtain ⟨hid, hst⟩ := process_clip_shape c i e e.initFS r hc
        refine ⟨by simp [hlen], by simp [effIds, hid, hids], ?_⟩
        intro x hx
        rcases List.mem_cons.mp hx with hx | hx
        · rw [hx]; exact hst
        · exact hstat x hx

theorem count_filter_split (results : List Outcome)
    (h : ∀ r ∈ results, r.status = pys "success" ∨ r.status = pys "failed" ∨
      r.status = pys "error") :
    (results.filter (fun r => decide (r.status = pys "success"))).length +
      (results.filter (fun r => decide (r.status = pys "failed") ||
        decide (r.status = pys "error"))).length = results.length := by
  induction results with
  | nil => rfl
  | cons r rest ih =>
    have hr := h r (by simp)
    have htail := ih (fun x hx => h x (by simp [hx]))
    rcases hr with h1 | h1 | h1 <;>
      simp +decide [List.filter_cons, h1] <;> omega

/-- C1: every batch of N Clip Descriptors yields a Batch Summary with
exactly N Clip Outcomes, one per descriptor in input order (witnessed by the
effective clip identifiers), and `successful + failed = total_clips`, where
`failed` counts both `failed` and `error` outcomes. -/
theorem batch_summary_invariant (clips : List (ClipData × ClipEnv))
    (results : List Outcome) (h : processAll clips = some results) :
    (save_processing_log results).total_clips = clips.length ∧
    results.map (fun o => o.clip_id) = effIds clips 0 ∧
    (save_processing_log results).successful + (save_processing_log results).failed =
      (save_processing_log results).total_clips := by
  obtain ⟨hlen, hids, hstat⟩ := processAllFrom_spec clips 0 results h
  refine ⟨by simp [save_processing_log, hlen], hids, ?_⟩
  have hc := count_filter_split results hstat
  simpa [save_processing_log] using hc

/-- C1 witness: the two-clip sample batch (one success, one failed
download) yields a summary with two outcomes in input order and
`successful + failed = total_clips = 2`. -/
theorem batch_summary_invariant_witness :
    processAll sampleBatch = some sampleResults ∧
    ((save_processing_log sampleResults).total_clips = sampleBatch.length ∧
      sampleResults.map (fun o => o.clip_id) = effIds sampleBatch 0 ∧
      (save_processing_log sampleResults).successful +
        (save_processing_log sampleResults).failed =
        (save_processing_log sampleResults).total_clips) :=
  ⟨by decide, batch_summary_invariant _ _ (by decide)⟩

/-- C6 witness: the round trip at the concrete value 3723 (01:02:03). -/
theorem parse_format_roundtrip_witness :
    time_to_seconds (seconds_to_time ((3723 : Nat) : Int)) = some ((3723 : Nat) : Int) :=
  parse_format_roundtrip 3723
